import Mathlib

/-!
Shallow embedding of `src/ArogyaAI/App.tsx` (a React Native component): the
screen state machine, the conversation log, the pending composition, and the
three effectful operations `sendMessage`, `pickImage` and `login`.  Network
and picker effects are modelled by passing their outcome as an explicit
argument; the component state (the `useState` hooks) together with the
AsyncStorage key-value store forms `AppState`.
-/

namespace ArogyaAI

/-- The fixed backend base URL (`const API_URL` in `App.tsx`). -/
def API_URL : String := "http://192.168.56.1:8000"

/-- The screen enum: `useState<'auth' | 'home' | 'chat' | 'emergency'>('auth')`. -/
inductive Screen where
  | auth
  | home
  | chat
  | emergency
deriving DecidableEq, Repr

/-- A conversation entry as the code builds it: `{ type, value, sender }` with
`type ∈ {"text","image"}` and `sender ∈ {"user","ai"}`. -/
structure Entry where
  type : String
  value : String
  sender : String
deriving DecidableEq, Repr

/-- The component state: the `useState` fields of `App`, plus the AsyncStorage
key-value store (`storage`).  `image` is the picked URI or `null` (`none`). -/
structure AppState where
  screen : Screen
  message : String
  chat : List Entry
  image : Option String
  email : String
  password : String
  loading : Bool
  storage : List (String × String)
deriving DecidableEq, Repr

/-- `AsyncStorage.getItem`: look a key up in the store. -/
def getItem (st : List (String × String)) (k : String) : Option String :=
  match st with
  | [] => none
  | (k', v) :: rest => if k' = k then some v else getItem rest k

/-- `AsyncStorage.setItem`: write a key, overwriting any prior value. -/
def setItem (st : List (String × String)) (k : String) (v : String) :
    List (String × String) :=
  match st with
  | [] => [(k, v)]
  | (k', v') :: rest =>
    if k' = k then (k, v) :: rest else (k', v') :: setItem rest k v

/-- JS `String.prototype.trim`: strip leading and trailing whitespace
(defined over the character list so it evaluates in the kernel; `message` is
plain ASCII text, for which this agrees with the JS whitespace set). -/
def jsTrim (s : String) : String :=
  ⟨((s.data.dropWhile Char.isWhitespace).reverse.dropWhile Char.isWhitespace).reverse⟩

/-- JS template interpolation of a possibly-null string (`null` prints as
`"null"`), used for the `Bearer ${token}` header. -/
def jsTemplate (o : Option String) : String :=
  match o with
  | none => "null"
  | some s => s

/-- JS `a || b` on an optional string field: the fallback is taken when the
field is absent or the empty string (both falsy), as in
`errorData.detail || 'Authentication failed'`. -/
def jsOrString (o : Option String) (fallback : String) : String :=
  match o with
  | none => fallback
  | some s => if s = "" then fallback else s

/-- The `image` part appended to the form data:
`{ uri: image, name: 'upload.jpg', type: 'image/jpeg' }`. -/
structure ImagePart where
  uri : String
  name : String
  type : String
deriving DecidableEq, Repr

/-- The multipart body built by `sendMessage`: an optional `message` field and
an optional `image` attachment. -/
structure FormData where
  message : Option String
  image : Option ImagePart
deriving DecidableEq, Repr

/-- The POST request `sendMessage` issues to `/chat/send`: URL, the
`Authorization` header and the multipart body. -/
structure ChatRequest where
  url : String
  authorization : String
  body : FormData
deriving DecidableEq, Repr

/-- Outcome of the `fetch` in `sendMessage`: the promise rejects (`thrown`),
or a response arrives with status flag `ok` and a JSON body whose `detail`
field (read on the error path) and `reply` field (read on the success path)
are given. -/
inductive SendResult where
  | thrown
  | response (ok : Bool) (detail : Option String) (reply : String)
deriving DecidableEq, Repr

/-- Everything `sendMessage` did besides updating state: the request it
issued (if any) and the `alert` it surfaced (if any). -/
structure SendOutcome where
  state : AppState
  request : Option ChatRequest
  alert : Option String
deriving DecidableEq, Repr

/-- The part of `sendMessage` that runs before the `fetch`: the empty-composition
guard (`!message.trim() && !image`), `setLoading(true)`, the optimistic
`text`/`user` append, the token read, building the form data, and clearing
`message` and `image`.  Returns `none` when the guard fires (the code alerts
and returns), otherwise the pre-fetch state and the request about to be sent. -/
def sendMessagePre (s : AppState) : Option (AppState × ChatRequest) :=
  if jsTrim s.message = "" ∧ s.image = none then
    none
  else
    let s1 := { s with loading := true }
    let s2 :=
      if jsTrim s.message ≠ "" then
        { s1 with chat := s1.chat ++ [{ type := "text", value := s.message, sender := "user" }] }
      else s1
    let token := getItem s2.storage "token"
    let fd : FormData :=
      { message := if jsTrim s.message ≠ "" then some (jsTrim s.message) else none
        image := s.image.map fun uri => { uri := uri, name := "upload.jpg", type := "image/jpeg" } }
    let s3 := { s2 with message := "", image := none }
    some (s3, { url := API_URL ++ "/chat/send"
                authorization := "Bearer " ++ jsTemplate token
                body := fd })

/-- The part of `sendMessage` after the `fetch` resolves or rejects:
`setLoading(false)`, then either the `Error: <detail or fallback>` entry
(non-ok status), the `reply` entry (ok status), or the
`Server not reachable` entry (catch block). -/
def sendMessageResolve (s : AppState) (res : SendResult) : AppState :=
  match res with
  | .thrown =>
    { s with loading := false
             chat := s.chat ++ [{ type := "text", value := "Server not reachable", sender := "ai" }] }
  | .response ok detail reply =>
    let s1 := { s with loading := false }
    if ok = false then
      { s1 with chat := s1.chat ++
          [{ type := "text"
             value := "Error: " ++ jsOrString detail "Authentication failed"
             sender := "ai" }] }
    else
      { s1 with chat := s1.chat ++ [{ type := "text", value := reply, sender := "ai" }] }

/-- `sendMessage` in full: guard, pre-fetch phase, then resolution of the
network outcome `res`. -/
def sendMessage (s : AppState) (res : SendResult) : SendOutcome :=
  match sendMessagePre s with
  | none =>
    { state := s
      request := none
      alert := some "Please enter a message or select an image" }
  | some (s', req) =>
    { state := sendMessageResolve s' res
      request := some req
      alert := none }

/-- Outcome of the image picker: the user cancels, or an asset with a URI is
chosen. -/
inductive PickResult where
  | canceled
  | asset (uri : String)
deriving DecidableEq, Repr

/-- `pickImage`: on cancel nothing changes; on an asset the URI becomes the
pending image and an `image`/`user` entry is appended to the chat. -/
def pickImage (s : AppState) (r : PickResult) : AppState :=
  match r with
  | .canceled => s
  | .asset uri =>
    { s with image := some uri
             chat := s.chat ++ [{ type := "image", value := uri, sender := "user" }] }

/-- Outcome of the `fetch` in `login`: rejection, or a response with status
flag `ok` and the body's `access_token` field. -/
inductive LoginResult where
  | thrown
  | response (ok : Bool) (access_token : String)
deriving DecidableEq, Repr

/-- State change plus the `alert` surfaced (if any) by `login`. -/
structure LoginOutcome where
  state : AppState
  alert : Option String
deriving DecidableEq, Repr

/-- `login`: on rejection alert `Server not reachable`; on a non-ok status
alert `Invalid credentials`; on success store the token under the key
`token` and navigate to `home`. -/
def login (s : AppState) (r : LoginResult) : LoginOutcome :=
  match r with
  | .thrown => { state := s, alert := some "Server not reachable" }
  | .response ok tok =>
    if ok = false then
      { state := s, alert := some "Invalid credentials" }
    else
      { state := { s with storage := setItem s.storage "token" tok
                          screen := Screen.home }
        alert := none }

/-- The chat-screen operations a user can fire (network/picker outcome
attached), used to state the append-only invariant of the log. -/
inductive Op where
  | send (res : SendResult)
  | pick (r : PickResult)

/-- Apply one operation to the state (discarding request/alert outputs). -/
def applyOp (s : AppState) (op : Op) : AppState :=
  match op with
  | .send res => (sendMessage s res).state
  | .pick r => pickImage s r

/-- Run a sequence of chat-screen operations. -/
def run (s : AppState) (ops : List Op) : AppState :=
  match ops with
  | [] => s
  | op :: rest => run (applyOp s op) rest

/-! Concrete states used to witness the theorems below. -/

/-- A chat-screen state with pending text `" hi "` and a stored token. -/
def exChat : AppState :=
  { screen := Screen.chat, message := " hi ", chat := [], image := none
    email := "", password := "", loading := false, storage := [("token", "tok")] }

/-- A chat-screen state whose pending text is whitespace only and that has no
pending image. -/
def exEmpty : AppState :=
  { screen := Screen.chat, message := "  ", chat := [], image := none
    email := "", password := "", loading := false, storage := [] }

/-- A chat-screen state with pending text `"hello"`, no image, empty storage. -/
def exHello : AppState :=
  { screen := Screen.chat, message := "hello", chat := [], image := none
    email := "", password := "", loading := false, storage := [] }

/-- An auth-screen state with typed-in credentials. -/
def exAuth : AppState :=
  { screen := Screen.auth, message := "", chat := [], image := none
    email := "a@b.c", password := "pw", loading := false, storage := [] }

/-- The pre-fetch state `sendMessagePre` produces from `exChat`. -/
def exChatPre : AppState :=
  { screen := Screen.chat, message := "", image := none
    chat := [{ type := "text", value := " hi ", sender := "user" }]
    email := "", password := "", loading := true, storage := [("token", "tok")] }

/-- The request `sendMessagePre` produces from `exChat`. -/
def exChatReq : ChatRequest :=
  { url := "http://192.168.56.1:8000/chat/send"
    authorization := "Bearer tok"
    body := { message := some "hi", image := none } }

/-- The pre-fetch state `sendMessagePre` produces from `exHello`. -/
def exHelloPre : AppState :=
  { screen := Screen.chat, message := "", image := none
    chat := [{ type := "text", value := "hello", sender := "user" }]
    email := "", password := "", loading := true, storage := [] }

/-- The request `sendMessagePre` produces from `exHello` (no stored token, so
the header interpolates `null`). -/
def exHelloReq : ChatRequest :=
  { url := "http://192.168.56.1:8000/chat/send"
    authorization := "Bearer null"
    body := { message := some "hello", image := none } }

/-! Helper lemmas. -/

/-- Writing a key makes it readable: `setItem` overwrites any prior value. -/
theorem getItem_setItem (st : List (String × String)) (k v : String) :
    getItem (setItem st k v) k = some v := by
  induction st with
  | nil => simp [setItem, getItem]
  | cons hd tl ih =>
    obtain ⟨k', v'⟩ := hd
    by_cases h : k' = k
    · simp [setItem, getItem, h]
    · simp [setItem, getItem, h, ih]

/-- Explicit form of the pre-fetch phase when the empty-composition guard does
not fire. -/
theorem sendMessagePre_eq (s : AppState) (h : ¬(jsTrim s.message = "" ∧ s.image = none)) :
    sendMessagePre s = some
      ({ s with loading := true
                chat := s.chat ++
                  (if jsTrim s.message ≠ "" then
                    [{ type := "text", value := s.message, sender := "user" }]
                  else [])
                message := ""
                image := none },
       { url := API_URL ++ "/chat/send"
         authorization := "Bearer " ++ jsTemplate (getItem s.storage "token")
         body := { message := if jsTrim s.message ≠ "" then some (jsTrim s.message) else none
                   image := s.image.map
                     fun uri => { uri := uri, name := "upload.jpg", type := "image/jpeg" } } }) := by
  unfold sendMessagePre
  rw [if_neg h]
  by_cases hm : jsTrim s.message = ""
  · simp [hm]
  · simp [hm]

/-- When the guard does not fire, `sendMessage`'s final state is the
resolution applied to the pre-fetch state. -/
theorem sendMessage_state_of_pre (s s' : AppState) (req : ChatRequest) (res : SendResult)
    (h : sendMessagePre s = some (s', req)) :
    (sendMessage s res).state = sendMessageResolve s' res := by
  unfold sendMessage
  rw [h]

/-- Resolution never touches the pending text. -/
theorem sendMessageResolve_message (s : AppState) (res : SendResult) :
    (sendMessageResolve s res).message = s.message := by
  cases res with
  | thrown => rfl
  | response ok detail reply => cases ok <;> rfl

/-- Resolution never touches the pending image. -/
theorem sendMessageResolve_image (s : AppState) (res : SendResult) :
    (sendMessageResolve s res).image = s.image := by
  cases res with
  | thrown => rfl
  | response ok detail reply => cases ok <;> rfl

/-- Resolution appends exactly one entry to the chat. -/
theorem sendMessageResolve_chat (s : AppState) (res : SendResult) :
    ∃ e, (sendMessageResolve s res).chat = s.chat ++ [e] := by
  cases res with
  | thrown => exact ⟨_, rfl⟩
  | response ok detail reply => cases ok <;> exact ⟨_, rfl⟩

/-- C1: for a send with non-empty trimmed text and a successful (2xx)
response, exactly one `text`/`user` entry (the pending text) is appended
before the request is issued, exactly one `text`/`assistant` entry carrying
the response's `reply` field is appended after the response, and the user
entry precedes the assistant entry in the log. -/
theorem sendMessage_success_log (s s' : AppState) (req : ChatRequest)
    (detail : Option String) (reply : String)
    (h1 : jsTrim s.message ≠ "")
    (h : sendMessagePre s = some (s', req)) :
    s'.chat = s.chat ++ [{ type := "text", value := s.message, sender := "user" }] ∧
    (sendMessage s (SendResult.response true detail reply)).state.chat =
      s'.chat ++ [{ type := "text", value := reply, sender := "ai" }] ∧
    (sendMessage s (SendResult.response true detail reply)).state.chat =
      s.chat ++ [{ type := "text", value := s.message, sender := "user" },
                 { type := "text", value := reply, sender := "ai" }] := by
  have hg : ¬(jsTrim s.message = "" ∧ s.image = none) := fun hc => h1 hc.1
  rw [sendMessagePre_eq s hg, Option.some.injEq, Prod.mk.injEq] at h
  obtain ⟨hs, hr⟩ := h
  subst hs
  subst hr
  rw [sendMessage_state_of_pre s _ _ (SendResult.response true detail reply)
    (sendMessagePre_eq s hg)]
  refine ⟨by simp [h1], ?_, ?_⟩ <;> simp [sendMessageResolve, h1]

theorem sendMessage_success_log_witness :
    jsTrim exChat.message ≠ "" ∧
    sendMessagePre exChat = some (exChatPre, exChatReq) ∧
    (exChatPre.chat =
      exChat.chat ++ [{ type := "text", value := exChat.message, sender := "user" }] ∧
    (sendMessage exChat (SendResult.response true none "ok")).state.chat =
      exChatPre.chat ++ [{ type := "text", value := "ok", sender := "ai" }] ∧
    (sendMessage exChat (SendResult.response true none "ok")).state.chat =
      exChat.chat ++ [{ type := "text", value := exChat.message, sender := "user" },
                      { type := "text", value := "ok", sender := "ai" }]) :=
  ⟨by decide, by decide,
    sendMessage_success_log exChat exChatPre exChatReq none "ok" (by decide) (by decide)⟩

/-- C2: when the trimmed text is empty and no image is pending, `sendMessage`
alerts a validation notification, issues no request, and leaves the whole
state (log, loading flag, everything) unchanged. -/
theorem sendMessage_empty_noop (s : AppState) (res : SendResult)
    (h : jsTrim s.message = "" ∧ s.image = none) :
    sendMessage s res =
      { state := s, request := none
        alert := some "Please enter a message or select an image" } := by
  have hp : sendMessagePre s = none := by
    unfold sendMessagePre
    rw [if_pos h]
  unfold sendMessage
  rw [hp]

theorem sendMessage_empty_noop_witness :
    (jsTrim exEmpty.message = "" ∧ exEmpty.image = none) ∧
    sendMessage exEmpty SendResult.thrown =
      { state := exEmpty, request := none
        alert := some "Please enter a message or select an image" } :=
  ⟨by decide, sendMessage_empty_noop exEmpty SendResult.thrown (by decide)⟩

/-- C3 counterexample: a non-success response whose body carries a present but
empty `detail` field.  The claim predicts the entry content `"Error: "` (the
prefix followed by the detail), but the code's `detail || 'Authentication
failed'` treats the empty string as falsy and appends
`"Error: Authentication failed"` instead. -/
theorem sendMessage_error_empty_detail_cex :
    (sendMessage exHello (SendResult.response false (some "") "r")).state.chat =
      [{ type := "text", value := "hello", sender := "user" },
       { type := "text", value := "Error: Authentication failed", sender := "ai" }] ∧
    ("Error: Authentication failed" : String) ≠ "Error: " ++ "" :=
  ⟨by decide, by decide⟩

/-- C3 (amended): on a non-success response the conversation gains exactly one
`text`/`assistant` entry reading `Error: ` followed by the body's `detail`
field, or by `Authentication failed` when `detail` is absent or the empty
string (JS falsy); in particular a 401 with body `{detail:"token expired"}`
yields `{type: text, value: "Error: token expired", sender: "ai"}`. -/
theorem sendMessage_error_entry (s : AppState) (detail : Option String) (reply : String)
    (h : ¬(jsTrim s.message = "" ∧ s.image = none)) :
    (sendMessage s (SendResult.response false detail reply)).state.chat =
      s.chat ++
        (if jsTrim s.message ≠ "" then
          [{ type := "text", value := s.message, sender := "user" }]
        else []) ++
        [{ type := "text", value := "Error: " ++ jsOrString detail "Authentication failed"
           sender := "ai" }] := by
  rw [sendMessage_state_of_pre s _ _ (SendResult.response false detail reply)
    (sendMessagePre_eq s h)]
  simp [sendMessageResolve]

theorem sendMessage_error_entry_witness :
    ¬(jsTrim exChat.message = "" ∧ exChat.image = none) ∧
    (sendMessage exChat (SendResult.response false (some "token expired") "")).state.chat =
      exChat.chat ++
        (if jsTrim exChat.message ≠ "" then
          [{ type := "text", value := exChat.message, sender := "user" }]
        else []) ++
        [{ type := "text"
           value := "Error: " ++ jsOrString (some "token expired") "Authentication failed"
           sender := "ai" }] :=
  ⟨by decide, sendMessage_error_entry exChat (some "token expired") "" (by decide)⟩

/-- C4: when the fetch itself throws, the loading flag returns to false and
the conversation gains exactly one `text`/`assistant` entry reading
`Server not reachable`. -/
theorem sendMessage_thrown_entry (s : AppState)
    (h : ¬(jsTrim s.message = "" ∧ s.image = none)) :
    (sendMessage s SendResult.thrown).state.loading = false ∧
    (sendMessage s SendResult.thrown).state.chat =
      s.chat ++
        (if jsTrim s.message ≠ "" then
          [{ type := "text", value := s.message, sender := "user" }]
        else []) ++
        [{ type := "text", value := "Server not reachable", sender := "ai" }] := by
  rw [sendMessage_state_of_pre s _ _ SendResult.thrown (sendMessagePre_eq s h)]
  exact ⟨rfl, by simp [sendMessageResolve]⟩

theorem sendMessage_thrown_entry_witness :
    ¬(jsTrim exChat.message = "" ∧ exChat.image = none) ∧
    ((sendMessage exChat SendResult.thrown).state.loading = false ∧
    (sendMessage exChat SendResult.thrown).state.chat =
      exChat.chat ++
        (if jsTrim exChat.message ≠ "" then
          [{ type := "text", value := exChat.message, sender := "user" }]
        else []) ++
        [{ type := "text", value := "Server not reachable", sender := "ai" }]) :=
  ⟨by decide, sendMessage_thrown_entry exChat (by decide)⟩

/-- C5: on a successful login response the only state changes are that the
body's `access_token` is written to storage under the fixed key `token`
(overwriting any prior value, as the read-back shows) and the screen becomes
`home`; on a non-success response the state is unchanged and
`Invalid credentials` is surfaced. -/
theorem login_token_and_screen (s : AppState) (tok : String) :
    (login s (LoginResult.response true tok)).state =
      { s with storage := setItem s.storage "token" tok, screen := Screen.home } ∧
    getItem (login s (LoginResult.response true tok)).state.storage "token" = some tok ∧
    login s (LoginResult.response false tok) =
      { state := s, alert := some "Invalid credentials" } := by
  refine ⟨rfl, ?_, rfl⟩
  show getItem (setItem s.storage "token" tok) "token" = some tok
  exact getItem_setItem s.storage "token" tok

/-- C6: the multipart body built by `sendMessage` has a `message` field iff
the trimmed text is non-empty (and it is the trimmed text), and an `image`
field iff a pending image is set (an attachment named `upload.jpg` of type
`image/jpeg` at the picked URI). -/
theorem sendMessage_formdata (s s' : AppState) (req : ChatRequest)
    (h : sendMessagePre s = some (s', req)) :
    (req.body.message.isSome ↔ jsTrim s.message ≠ "") ∧
    (req.body.image.isSome ↔ s.image.isSome) ∧
    req.body.message = (if jsTrim s.message ≠ "" then some (jsTrim s.message) else none) ∧
    req.body.image =
      s.image.map fun uri => { uri := uri, name := "upload.jpg", type := "image/jpeg" } := by
  have hg : ¬(jsTrim s.message = "" ∧ s.image = none) := by
    intro hc
    rw [show sendMessagePre s = none from by unfold sendMessagePre; rw [if_pos hc]] at h
    exact Option.noConfusion h
  rw [sendMessagePre_eq s hg, Option.some.injEq, Prod.mk.injEq] at h
  obtain ⟨hs, hr⟩ := h
  subst hr
  refine ⟨?_, ?_, rfl, rfl⟩
  · by_cases hm : jsTrim s.message = "" <;> simp [hm]
  · cases hi : s.image <;> simp

theorem sendMessage_formdata_witness :
    sendMessagePre exHello = some (exHelloPre, exHelloReq) ∧
    ((exHelloReq.body.message.isSome ↔ jsTrim exHello.message ≠ "") ∧
    (exHelloReq.body.image.isSome ↔ exHello.image.isSome) ∧
    exHelloReq.body.message =
      (if jsTrim exHello.message ≠ "" then some (jsTrim exHello.message) else none) ∧
    exHelloReq.body.image =
      exHello.image.map fun uri => { uri := uri, name := "upload.jpg", type := "image/jpeg" }) :=
  ⟨by decide, sendMessage_formdata exHello exHelloPre exHelloReq (by decide)⟩

/-- C7: once a send passes the guard, the pending text and pending image are
both cleared in the pre-fetch state (before the request is issued) and stay
cleared in the final state whatever the network outcome is. -/
theorem sendMessage_clears_composition (s s' : AppState) (req : ChatRequest) (res : SendResult)
    (h : sendMessagePre s = some (s', req)) :
    s'.message = "" ∧ s'.image = none ∧
    (sendMessage s res).state.message = "" ∧ (sendMessage s res).state.image = none := by
  have hg : ¬(jsTrim s.message = "" ∧ s.image = none) := by
    intro hc
    rw [show sendMessagePre s = none from by unfold sendMessagePre; rw [if_pos hc]] at h
    exact Option.noConfusion h
  rw [sendMessagePre_eq s hg, Option.some.injEq, Prod.mk.injEq] at h
  obtain ⟨hs, hr⟩ := h
  subst hs
  refine ⟨rfl, rfl, ?_, ?_⟩
  · rw [sendMessage_state_of_pre s _ _ res (sendMessagePre_eq s hg),
      sendMessageResolve_message]
  · rw [sendMessage_state_of_pre s _ _ res (sendMessagePre_eq s hg),
      sendMessageResolve_image]

theorem sendMessage_clears_composition_witness :
    sendMessagePre exChat = some (exChatPre, exChatReq) ∧
    (exChatPre.message = "" ∧ exChatPre.image = none ∧
    (sendMessage exChat SendResult.thrown).state.message = "" ∧
    (sendMessage exChat SendResult.thrown).state.image = none) :=
  ⟨by decide,
    sendMessage_clears_composition exChat exChatPre exChatReq SendResult.thrown (by decide)⟩

/-- Each single chat-screen operation leaves the log unchanged or appends at
its end. -/
theorem applyOp_chat_extends (s : AppState) (op : Op) :
    ∃ t, (applyOp s op).chat = s.chat ++ t := by
  cases op with
  | pick r =>
    cases r with
    | canceled => exact ⟨[], (List.append_nil s.chat).symm⟩
    | asset uri => exact ⟨_, rfl⟩
  | send res =>
    by_cases hg : jsTrim s.message = "" ∧ s.image = none
    · have hp : sendMessagePre s = none := by
        unfold sendMessagePre
        rw [if_pos hg]
      have hst : (applyOp s (Op.send res)).chat = s.chat := by
        show (sendMessage s res).state.chat = s.chat
        unfold sendMessage
        rw [hp]
      exact ⟨[], by rw [hst, List.append_nil]⟩
    · have hst := sendMessage_state_of_pre s _ _ res (sendMessagePre_eq s hg)
      obtain ⟨e, he⟩ := sendMessageResolve_chat _ res
      refine ⟨(if jsTrim s.message ≠ "" then
          [{ type := "text", value := s.message, sender := "user" }]
        else []) ++ [e], ?_⟩
      show (sendMessage s res).state.chat = _
      rw [hst, he]
      simp [List.append_assoc]

/-- C8: the conversation log is append-only across any sequence of
`sendMessage` and `pickImage` operations: the old log is an initial segment
of the new one (so every old entry survives unmodified in its original
relative position) and the length never decreases. -/
theorem chat_append_only (s : AppState) (ops : List Op) :
    (∃ t, (run s ops).chat = s.chat ++ t) ∧
    s.chat.length ≤ (run s ops).chat.length := by
  suffices h : ∃ t, (run s ops).chat = s.chat ++ t by
    obtain ⟨t, ht⟩ := h
    exact ⟨⟨t, ht⟩, by rw [ht]; simp⟩
  induction ops generalizing s with
  | nil => exact ⟨[], (List.append_nil _).symm⟩
  | cons op rest ih =>
    obtain ⟨t1, h1⟩ := applyOp_chat_extends s op
    obtain ⟨t2, h2⟩ := ih (applyOp s op)
    refine ⟨t1 ++ t2, ?_⟩
    show (run (applyOp s op) rest).chat = _
    rw [h2, h1, List.append_assoc]

/-- C9 counterexample: after a successful login from a state holding typed-in
credentials, the screen is `home` but `email` and `password` still hold their
old (non-empty) values — `login` never clears them, contradicting the claim
that navigating away from `auth` clears the credentials. -/
theorem login_credentials_cex :
    (login exAuth (LoginResult.response true "tok123")).state.screen = Screen.home ∧
    (login exAuth (LoginResult.response true "tok123")).state.email = "a@b.c" ∧
    (login exAuth (LoginResult.response true "tok123")).state.password = "pw" ∧
    ("a@b.c" : String) ≠ "" ∧ ("pw" : String) ≠ "" :=
  ⟨rfl, rfl, rfl, by decide, by decide⟩

/-- C9 (amended): the credential fields are merely unused after leaving the
auth screen, not cleared: `login` leaves `email` and `password` exactly as
they were in every outcome, including the successful one that navigates to
`home`. -/
theorem login_preserves_credentials (s : AppState) (r : LoginResult) :
    (login s r).state.email = s.email ∧ (login s r).state.password = s.password := by
  cases r with
  | thrown => exact ⟨rfl, rfl⟩
  | response ok tok => cases ok <;> exact ⟨rfl, rfl⟩

/-- C10: the optimistic `text`/`user` entry displays the original untrimmed
pending text while the `message` form field carries the trimmed text, so for
any pending text with surrounding whitespace the displayed and transmitted
strings differ. -/
theorem sendMessage_untrimmed_display (s s' : AppState) (req : ChatRequest)
    (h1 : jsTrim s.message ≠ "") (h2 : s.message ≠ jsTrim s.message)
    (h : sendMessagePre s = some (s', req)) :
    s'.chat = s.chat ++ [{ type := "text", value := s.message, sender := "user" }] ∧
    req.body.message = some (jsTrim s.message) ∧
    req.body.message ≠ some s.message := by
  have hg : ¬(jsTrim s.message = "" ∧ s.image = none) := fun hc => h1 hc.1
  rw [sendMessagePre_eq s hg, Option.some.injEq, Prod.mk.injEq] at h
  obtain ⟨hs, hr⟩ := h
  subst hs
  subst hr
  refine ⟨by simp [h1], by simp [h1], ?_⟩
  show (if jsTrim s.message ≠ "" then some (jsTrim s.message) else none) ≠ some s.message
  rw [if_pos h1]
  simp only [ne_eq, Option.some.injEq]
  exact fun e => h2 e.symm

theorem sendMessage_untrimmed_display_witness :
    jsTrim exChat.message ≠ "" ∧
    exChat.message ≠ jsTrim exChat.message ∧
    sendMessagePre exChat = some (exChatPre, exChatReq) ∧
    (exChatPre.chat =
      exChat.chat ++ [{ type := "text", value := exChat.message, sender := "user" }] ∧
    exChatReq.body.message = some (jsTrim exChat.message) ∧
    exChatReq.body.message ≠ some exChat.message) :=
  ⟨by decide, by decide, by decide,
    sendMessage_untrimmed_display exChat exChatPre exChatReq (by decide) (by decide) (by decide)⟩

end ArogyaAI
